import Mathlib

/-!
Verification of the Post Title Renderer of the learning-typescript site:
the `BlogPostItemHeaderTitle` component in
`src/theme/BlogPostItem/Header/Title/index.js`.

The component reads `{ permalink, title: rawTitle }` from the blog-post
metadata together with the `isBlogPostPage` flag, renders the title inside
an `h1` (post page) or an `h2` wrapping a `Link` (list view), substitutes a
fixed fragment for the one special-cased title
`"The `satisfies` Operator"`, and, in a `useEffect` keyed on the computed
`title`, assigns `document.title = rawTitle.replace("\x60", "")`.

The shallow embedding below mirrors that file: the rendered heading is a
`Heading` value, the heading content is a list of inline nodes (optionally
wrapped in a link), and the document-title side effect is the pure
function `documentTitle`.  JavaScript's `String.prototype.replace` with a
string pattern replaces only the first occurrence, which the embedding
reproduces character-list-wise.
-/

namespace LTS

/-- An inline node of the heading content: plain text or a `<code>` span. -/
inductive Inline where
  | text (s : String)
  | code (s : String)
deriving DecidableEq, Repr

/-- The heading content: either the title nodes directly (post page) or the
title nodes wrapped in a `Link` element carrying an `itemProp` and a `to`
target (list view). -/
inductive HeadingContent where
  | plain (nodes : List Inline)
  | linked (itemProp : String) (toTarget : String) (nodes : List Inline)
deriving DecidableEq, Repr

/-- The rendered heading element: its level (1 for `h1`, 2 for `h2`), its
CSS class list, its `itemProp` attribute and its content. -/
structure Heading where
  level : Nat
  classes : List String
  itemProp : String
  content : HeadingContent
deriving DecidableEq, Repr

/-- The special-cased literal compared against `rawTitle` in the source. -/
def satisfiesTitle : String := "The `satisfies` Operator"

/-- The CSS-module class `styles.title` imported from `styles.module.css`.
Its concrete (hashed) value is irrelevant to every claim; it is modelled as
an abstract non-empty token. -/
def stylesTitle : String := "styles.title"

/-- `clsx(styles.title, className)`: `clsx` keeps truthy string arguments
in order; an absent (`undefined`) or empty `className` is falsy and
dropped. -/
def clsxClasses (base : String) (className : Option String) : List String :=
  base :: (match className with
    | some c => if c = "" then [] else [c]
    | none => [])

/-- The computed `title` of the source: the fixed substituted fragment
`The <code>satisfies</code> operator` when `rawTitle` equals the
special-cased literal, otherwise the raw title as a single text node. -/
def titleNodes (rawTitle : String) : List Inline :=
  if rawTitle = satisfiesTitle then
    [Inline.text "The ", Inline.code "satisfies", Inline.text " operator"]
  else
    [Inline.text rawTitle]

/-- The rendered output of `BlogPostItemHeaderTitle`: an `h1` holding the
title nodes on the post page, an `h2` holding a `Link` (with
`itemProp="url"` and `to={permalink}`) around the title nodes otherwise;
in both cases with `clsx(styles.title, className)` and
`itemProp="headline"`. -/
def BlogPostItemHeaderTitle (className : Option String) (rawTitle : String)
    (permalink : String) (isBlogPostPage : Bool) : Heading :=
  { level := if isBlogPostPage then 1 else 2
    classes := clsxClasses stylesTitle className
    itemProp := "headline"
    content :=
      if isBlogPostPage then
        HeadingContent.plain (titleNodes rawTitle)
      else
        HeadingContent.linked "url" permalink (titleNodes rawTitle) }

/-- Remove the first backtick of a character list, the behaviour of
`String.prototype.replace` with the one-character string pattern: only the
first occurrence is replaced, and the string is returned unchanged when no
occurrence exists. -/
def removeFirstBacktick : List Char → List Char
  | [] => []
  | c :: cs => if c = '`' then cs else c :: removeFirstBacktick cs

/-- The value assigned to `document.title` by the effect:
`rawTitle.replace("\x60", "")`. -/
def documentTitle (rawTitle : String) : String :=
  String.mk (removeFirstBacktick rawTitle.data)

/-- The text of an inline node (its rendered character data). -/
def Inline.textOf : Inline → String
  | Inline.text s => s
  | Inline.code s => s

/-- The inline nodes of a heading content, through the link wrapper when
one is present. -/
def HeadingContent.nodes : HeadingContent → List Inline
  | HeadingContent.plain ns => ns
  | HeadingContent.linked _ _ ns => ns

/-- The text content of a heading: the concatenated text of its inline
nodes, looking through the link wrapper. -/
def Heading.textContent (h : Heading) : String :=
  String.join (h.content.nodes.map Inline.textOf)

/-- C1: For every title other than the special-cased literal, rendering
produces the raw title text unchanged as the heading content: inside a
level-1 heading when the post-page flag is true, and inside a level-2
heading whose content is wrapped in a link to the permalink when it is
false. -/
theorem c1_plain_title_rendering (className : Option String)
    (rawTitle permalink : String) (h : rawTitle ≠ satisfiesTitle) :
    BlogPostItemHeaderTitle className rawTitle permalink true =
      { level := 1
        classes := clsxClasses stylesTitle className
        itemProp := "headline"
        content := HeadingContent.plain [Inline.text rawTitle] } ∧
    BlogPostItemHeaderTitle className rawTitle permalink false =
      { level := 2
        classes := clsxClasses stylesTitle className
        itemProp := "headline"
        content :=
          HeadingContent.linked "url" permalink [Inline.text rawTitle] } := by
  constructor <;> simp [BlogPostItemHeaderTitle, titleNodes, h]

/-- Witness for C1 at the concrete title `"Branded Types"`. -/
theorem c1_plain_title_rendering_witness :
    BlogPostItemHeaderTitle (some "cls") "Branded Types"
        "/articles/branded-types" true =
      { level := 1
        classes := ["styles.title", "cls"]
        itemProp := "headline"
        content := HeadingContent.plain [Inline.text "Branded Types"] } ∧
    BlogPostItemHeaderTitle (some "cls") "Branded Types"
        "/articles/branded-types" false =
      { level := 2
        classes := ["styles.title", "cls"]
        itemProp := "headline"
        content := HeadingContent.linked "url" "/articles/branded-types"
          [Inline.text "Branded Types"] } := by
  have h :=
    c1_plain_title_rendering (some "cls") "Branded Types"
      "/articles/branded-types" (by decide)
  simpa [stylesTitle, clsxClasses] using h

/-- A character list without a backtick is left unchanged by
`removeFirstBacktick`. -/
theorem removeFirstBacktick_of_not_mem {l : List Char} (h : '`' ∉ l) :
    removeFirstBacktick l = l := by
  induction l with
  | nil => rfl
  | cons c cs ih =>
    have hc : c ≠ '`' := fun hc => h (hc ▸ List.mem_cons_self c cs)
    have hcs : '`' ∉ cs := fun hm => h (List.mem_cons_of_mem c hm)
    simp [removeFirstBacktick, fun hc2 => hc hc2, ih hcs]

/-- C2 counterexample: the title `"a\x60b"` differs from the special-cased
literal, yet its document title `"ab"` is not the raw title verbatim — the
effect strips the first backtick of every title, not only of the
special-cased one. -/
theorem c2_counterexample :
    "a`b" ≠ satisfiesTitle ∧
    documentTitle "a`b" = "ab" ∧ documentTitle "a`b" ≠ "a`b" := by
  refine ⟨by decide, by decide, by decide⟩

/-- C2 amended: the document-title effect, on the special-cased literal,
strips exactly the first backtick and leaves the rest (its second backtick
included) intact; for every other title containing no backtick the
document title equals the raw title verbatim. -/
theorem c2_amended_document_title :
    documentTitle satisfiesTitle = "The satisfies` Operator" ∧
    ∀ s : String, '`' ∉ s.data → documentTitle s = s := by
  refine ⟨by decide, fun s h => ?_⟩
  show String.mk (removeFirstBacktick s.data) = s
  rw [removeFirstBacktick_of_not_mem h]

/-- Witness for C2 amended at the backtick-free title `"Branded Types"`. -/
theorem c2_amended_document_title_witness :
    documentTitle "Branded Types" = "Branded Types" :=
  c2_amended_document_title.2 "Branded Types" (by decide)

/-- C3 counterexample: for the special-cased literal, the substituted
markup does not end at the inline-code fragment — no choice of prefix text
and code text makes the rendered content `[text prefix, code codeText]`,
because a text node `" operator"` follows the code fragment. -/
theorem c3_counterexample :
    ¬ ∃ (prefixText codeText : String),
        (BlogPostItemHeaderTitle none satisfiesTitle "/p" true).content =
          HeadingContent.plain
            [Inline.text prefixText, Inline.code codeText] := by
  rintro ⟨a, b, h⟩
  simp [BlogPostItemHeaderTitle, titleNodes] at h

/-- C3 amended: for the exact special-cased literal and both flag values,
rendering substitutes the fixed markup for the raw title: plain prefix
text `"The "`, the inline-code fragment `satisfies`, then the plain suffix
text `" operator"` after the code fragment (wrapped in the permalink link
when the flag is false). -/
theorem c3_amended_substituted_markup (className : Option String)
    (permalink : String) :
    (BlogPostItemHeaderTitle className satisfiesTitle permalink true).content
      = HeadingContent.plain
          [Inline.text "The ", Inline.code "satisfies",
            Inline.text " operator"] ∧
    (BlogPostItemHeaderTitle className satisfiesTitle permalink false).content
      = HeadingContent.linked "url" permalink
          [Inline.text "The ", Inline.code "satisfies",
            Inline.text " operator"] := by
  constructor <;> simp [BlogPostItemHeaderTitle, titleNodes]

/-- C4 counterexample: for the special-cased literal, the document title
is `"The satisfies\x60 Operator"` — it is not the backtick-free
`"The satisfies Operator"`, a backtick remains since `replace` removes
only the first occurrence. -/
theorem c4_counterexample :
    documentTitle satisfiesTitle = "The satisfies` Operator" ∧
    documentTitle satisfiesTitle ≠ "The satisfies Operator" ∧
    '`' ∈ (documentTitle satisfiesTitle).data := by
  refine ⟨by decide, by decide, by decide⟩

/-- C4 amended: for the special-cased literal with the flag true, the
rendered output is `<h1>The <code>satisfies</code> operator</h1>` and the
document title becomes `"The satisfies\x60 Operator"`, its second backtick
remaining. -/
theorem c4_amended_satisfies_post_page (className : Option String)
    (permalink : String) :
    BlogPostItemHeaderTitle className satisfiesTitle permalink true =
      { level := 1
        classes := clsxClasses stylesTitle className
        itemProp := "headline"
        content := HeadingContent.plain
          [Inline.text "The ", Inline.code "satisfies",
            Inline.text " operator"] } ∧
    documentTitle satisfiesTitle = "The satisfies` Operator" := by
  refine ⟨?_, by decide⟩
  simp [BlogPostItemHeaderTitle, titleNodes]

/-- A value a `useEffect` dependency slot can hold across renders, as
compared by React with `Object.is`: the computed `title` is either the raw
title string (strings compare by value) or, for the special-cased literal,
a React element freshly created by that render — `Object.is` compares it
by identity, so it is modelled by the index of the render that created
it. -/
inductive DepVal where
  | strVal (s : String)
  | element (renderId : Nat)
deriving DecidableEq, Repr

/-- The `[title]` dependency produced by the render with the given index:
a fresh element for the special-cased literal, the raw title string
otherwise. -/
def titleDep (renderId : Nat) (rawTitle : String) : DepVal :=
  if rawTitle = satisfiesTitle then DepVal.element renderId
  else DepVal.strVal rawTitle

/-- Whether the effect runs after a render: always after the first render,
and after a later render exactly when its dependency differs (under
`Object.is`) from the previous render's. -/
def effectRuns (prev : Option DepVal) (cur : DepVal) : Bool :=
  match prev with
  | none => true
  | some p => decide (p ≠ cur)

/-- One pass over a render sequence, carrying the previous dependency and
the render index, recording for each render whether the effect ran. -/
def effectRunFlagsAux : Option DepVal → Nat → List String → List Bool
  | _, _, [] => []
  | prev, i, t :: ts =>
    let d := titleDep i t
    effectRuns prev d :: effectRunFlagsAux (some d) (i + 1) ts

/-- For a sequence of renders with the given raw titles, which renders run
the document-title effect. -/
def effectRunFlags (titles : List String) : List Bool :=
  effectRunFlagsAux none 0 titles

/-- C5 counterexample: two consecutive renders with the identical
special-cased title both run the document-title effect — two runs for one
distinct title value, because each render creates a fresh substituted
element and the dependency comparison fails. -/
theorem c5_counterexample :
    effectRunFlags [satisfiesTitle, satisfiesTitle] = [true, true] ∧
    (effectRunFlags [satisfiesTitle, satisfiesTitle]).count true = 2 ∧
    ¬((effectRunFlags [satisfiesTitle, satisfiesTitle]).count true ≤ 1) := by
  refine ⟨by decide, by decide, by decide⟩

/-- C5 amended: rendering is a pure function of its inputs, so repeated
renders with identical inputs produce identical output; for a title other
than the special-cased literal, two consecutive renders with that same
title run the effect only on the first of the two; for the special-cased
literal, the effect runs on every render, repeats included, because its
dependency is a freshly created element each time. -/
theorem c5_amended_effect_schedule (t : String) (h : t ≠ satisfiesTitle) :
    effectRunFlags [t, t] = [true, false] ∧
    effectRunFlags [satisfiesTitle, satisfiesTitle] = [true, true] := by
  constructor
  · simp [effectRunFlags, effectRunFlagsAux, titleDep, effectRuns, h]
  · decide

/-- Witness for C5 amended at the concrete title `"Branded Types"`. -/
theorem c5_amended_effect_schedule_witness :
    effectRunFlags ["Branded Types", "Branded Types"] = [true, false] ∧
    effectRunFlags [satisfiesTitle, satisfiesTitle] = [true, true] :=
  c5_amended_effect_schedule "Branded Types" (by decide)

/-- The title nodes when the metadata may lack a title: `rawTitle` is then
`undefined`, the strict equality with the special-cased literal is false,
and the JSX child `{title}` renders nothing. -/
def titleNodesOpt : Option String → List Inline
  | some s => titleNodes s
  | none => []

/-- The rendered output of `BlogPostItemHeaderTitle` when the metadata may
lack a title. -/
def BlogPostItemHeaderTitleOpt (className : Option String)
    (rawTitle : Option String) (permalink : String)
    (isBlogPostPage : Bool) : Heading :=
  { level := if isBlogPostPage then 1 else 2
    classes := clsxClasses stylesTitle className
    itemProp := "headline"
    content :=
      if isBlogPostPage then
        HeadingContent.plain (titleNodesOpt rawTitle)
      else
        HeadingContent.linked "url" permalink (titleNodesOpt rawTitle) }

/-- The document-title effect when the metadata may lack a title:
`rawTitle.replace` on `undefined` throws a `TypeError` before any
assignment happens. -/
def documentTitleOpt : Option String → Except String String
  | none =>
    Except.error "TypeError: Cannot read properties of undefined"
  | some s => Except.ok (documentTitle s)

/-- Whether the effect completed without error. -/
def effectOk : Except String String → Bool
  | Except.ok _ => true
  | Except.error _ => false

/-- C6 counterexample: with an absent title the document-title effect does
not complete without error — accessing `replace` on the absent value
throws. -/
theorem c6_counterexample :
    effectOk (documentTitleOpt none) = false ∧
    documentTitleOpt none =
      Except.error "TypeError: Cannot read properties of undefined" := by
  exact ⟨rfl, rfl⟩

/-- C6 amended: for every present (string) title, the empty string
included, the operation completes without error; an empty title renders as
empty heading content with the document title set to the empty string; an
absent title still renders as an empty heading, but its document-title
side effect fails instead of completing. -/
theorem c6_amended_error_behaviour :
    (∀ s : String, documentTitleOpt (some s) = Except.ok (documentTitle s)) ∧
    documentTitle "" = "" ∧
    (∀ (className : Option String) (p : String) (b : Bool),
      (BlogPostItemHeaderTitleOpt className (some "") p b).textContent = "" ∧
      (BlogPostItemHeaderTitleOpt className none p b).textContent = "") ∧
    effectOk (documentTitleOpt none) = false := by
  have hne : ("" : String) ≠ satisfiesTitle := by decide
  refine ⟨fun s => rfl, by decide, fun className p b => ?_, rfl⟩
  cases b <;>
    simp [BlogPostItemHeaderTitleOpt, titleNodesOpt, titleNodes, hne,
      Heading.textContent, HeadingContent.nodes, Inline.textOf, String.join]

/-- C7: with the title and permalink fixed, flipping the post-page flag
from false to true changes only the heading level and the presence of the
link wrapper: the text content, the classes, the `itemProp` and the inline
title nodes themselves are identical in both outputs. -/
theorem c7_flag_changes_only_structure (className : Option String)
    (t p : String) :
    (BlogPostItemHeaderTitle className t p true).textContent =
      (BlogPostItemHeaderTitle className t p false).textContent ∧
    (BlogPostItemHeaderTitle className t p true).level = 1 ∧
    (BlogPostItemHeaderTitle className t p false).level = 2 ∧
    (BlogPostItemHeaderTitle className t p true).classes =
      (BlogPostItemHeaderTitle className t p false).classes ∧
    (BlogPostItemHeaderTitle className t p true).itemProp =
      (BlogPostItemHeaderTitle className t p false).itemProp ∧
    (BlogPostItemHeaderTitle className t p true).content =
      HeadingContent.plain (titleNodes t) ∧
    (BlogPostItemHeaderTitle className t p false).content =
      HeadingContent.linked "url" p (titleNodes t) := by
  refine ⟨?_, rfl, rfl, rfl, rfl, rfl, rfl⟩
  simp [BlogPostItemHeaderTitle, Heading.textContent, HeadingContent.nodes]

/-- The decomposition performed by `removeFirstBacktick` on a list that
contains a backtick: the list splits at its first backtick, and exactly
that occurrence is removed. -/
theorem removeFirstBacktick_eq_of_mem {l : List Char} (h : '`' ∈ l) :
    ∃ a b, l = a ++ '`' :: b ∧ '`' ∉ a ∧ removeFirstBacktick l = a ++ b := by
  induction l with
  | nil => cases h
  | cons c cs ih =>
    by_cases hc : c = '`'
    · exact ⟨[], cs, by simp [hc], by simp, by simp [removeFirstBacktick, hc]⟩
    · have hcs : '`' ∈ cs := by
        rcases List.mem_cons.mp h with h1 | h2
        · exact absurd h1.symm hc
        · exact h2
      obtain ⟨a, b, h1, h2, h3⟩ := ih hcs
      refine ⟨c :: a, b, by simp [h1], ?_, ?_⟩
      · simp only [List.mem_cons, not_or]
        exact ⟨fun hb => hc hb.symm, h2⟩
      · simp [removeFirstBacktick, hc, h3]

/-- C8: for every title containing a backtick, the document-title effect
removes exactly the first backtick occurrence: the title splits at its
first backtick and only that character disappears, the backtick count
drops by exactly one, and when at least two backticks are present the
resulting document title neither equals the raw title nor is
backtick-free. -/
theorem c8_first_backtick_only (s : String) (h : '`' ∈ s.data) :
    (∃ a b, s.data = a ++ '`' :: b ∧ '`' ∉ a ∧
      (documentTitle s).data = a ++ b) ∧
    (documentTitle s).data.count '`' = s.data.count '`' - 1 ∧
    (2 ≤ s.data.count '`' →
      documentTitle s ≠ s ∧ '`' ∈ (documentTitle s).data) := by
  obtain ⟨a, b, h1, h2, h3⟩ := removeFirstBacktick_eq_of_mem h
  have hdata : (documentTitle s).data = a ++ b := h3
  have hca : a.count '`' = 0 := List.count_eq_zero.mpr h2
  have hcount : (documentTitle s).data.count '`' = s.data.count '`' - 1 := by
    rw [hdata, h1]
    simp [List.count_append, List.count_cons, hca]
  refine ⟨⟨a, b, h1, h2, hdata⟩, hcount, fun h2le => ?_⟩
  have hb : 1 ≤ b.count '`' := by
    have hs : s.data.count '`' = b.count '`' + 1 := by
      rw [h1]; simp [List.count_append, List.count_cons, hca]
    omega
  constructor
  · intro heq
    have hlen : (documentTitle s).data.length = s.data.length := by
      rw [heq]
    rw [hdata, h1] at hlen
    simp at hlen
  · rw [hdata]
    exact List.mem_append.mpr (Or.inr (List.count_pos_iff.mp hb))

/-- Witness for C8 at the concrete two-backtick title `"a\x60b\x60c"`. -/
theorem c8_first_backtick_only_witness :
    '`' ∈ ("a`b`c" : String).data ∧
    documentTitle "a`b`c" ≠ "a`b`c" ∧ '`' ∈ (documentTitle "a`b`c").data :=
  ⟨by decide, (c8_first_backtick_only "a`b`c" (by decide)).2.2 (by decide)⟩

/-- The value the effect writes to the document title, as a function of
all the component's inputs: the source computes it from `rawTitle` alone
(`rawTitle.replace`), never reading the permalink or the flag. -/
def effectDocumentTitle (rawTitle : String) (_permalink : String)
    (_isBlogPostPage : Bool) : String :=
  documentTitle rawTitle

/-- C9: when the post-page flag is true the rendered output does not
depend on the permalink — any two permalinks give identical output — and
the document-title effect never depends on the permalink in either
mode. -/
theorem c9_permalink_noninterference (className : Option String)
    (t p q : String) (b : Bool) :
    BlogPostItemHeaderTitle className t p true =
      BlogPostItemHeaderTitle className t q true ∧
    effectDocumentTitle t p b = effectDocumentTitle t q b :=
  ⟨rfl, rfl⟩

/-- C10: for every title, permalink, class name and flag value, the
rendered heading carries `itemProp="headline"` and its class list contains
the component's `styles.title` class. -/
theorem c10_headline_and_title_class (className : Option String)
    (t p : String) (b : Bool) :
    (BlogPostItemHeaderTitle className t p b).itemProp = "headline" ∧
    stylesTitle ∈ (BlogPostItemHeaderTitle className t p b).classes := by
  refine ⟨rfl, ?_⟩
  simp [BlogPostItemHeaderTitle, clsxClasses]

end LTS
